import Mathlib

/-!
Shallow embedding of the reservation / payment-reconciliation backend
(`server.js` + `sqlite.js`).

The SQLite reservation table is modelled as a `List Reservation`; each
`UPDATE ... WHERE id = ?` statement becomes a `List.map` that rewrites the
matching row, returning (as `better-sqlite3` does through `info.changes`)
whether any row matched.  JavaScript truthiness on optional strings
(`undefined`, `null` and `""` are falsy) is modelled by `truthyStr` over
`Option String`.  `Math.round` is `⌊x + 1/2⌋` on exact rationals.
Timestamps (`created_at` is kept as an abstract `Nat` for the admin list's
`ORDER BY`; `updated_at` is not part of the logical state).
-/

/-- JavaScript truthiness of a possibly-absent string:
`undefined`/`null` (`none`) and the empty string are falsy. -/
def truthyStr : Option String → Bool
  | some s => !(s == "")
  | none => false

/-- `Math.round` on an exact rational: round half toward positive infinity,
i.e. `⌊x + 1/2⌋` (e.g. `Math.round(-0.5) = 0`, `Math.round(0.5) = 1`). -/
def jsRound (x : Rat) : Int := ⌊x + 1/2⌋

/-- Round half away from zero (the spec's stated rounding policy), for
comparison with `jsRound`. -/
def roundHalfAway (x : Rat) : Int :=
  if 0 ≤ x then ⌊x + 1/2⌋ else -⌊-x + 1/2⌋

/-- JS `String.prototype.toLowerCase` on ASCII currency codes: lower-case
each character. -/
def jsToLowerCase (s : String) : String := ⟨s.data.map Char.toLower⟩

/-- One row of the `reservations` table (`sqlite.js`, `migrate`).
`stripe_session_id` / `stripe_payment_intent` are `none` while still SQL
`NULL`; attaching stores `some v` (possibly `some ""`). -/
structure Reservation where
  id : String
  salon_id : String := ""
  salon_name : String := ""
  item : String := ""
  price : Rat := 0
  time_iso : String := ""
  contact_name : String := ""
  contact_email : String := ""
  contact_phone : String := ""
  status : String := "pending"
  stripe_session_id : Option String := none
  stripe_payment_intent : Option String := none
  created_at : Nat := 0
deriving DecidableEq, Repr

/-- `updateReservationStatus(id, status)` (`sqlite.js`): set `status` on the
row whose id matches; the `Bool` is `info.changes > 0`. -/
def updateReservationStatus (db : List Reservation) (id status : String) :
    List Reservation × Bool :=
  (db.map fun r => if r.id == id then { r with status := status } else r,
   db.any fun r => r.id == id)

/-- `attachStripeSession(id, session_id)` (`sqlite.js`). -/
def attachStripeSession (db : List Reservation) (id sid : String) :
    List Reservation × Bool :=
  (db.map fun r =>
      if r.id == id then { r with stripe_session_id := some sid } else r,
   db.any fun r => r.id == id)

/-- `attachPaymentIntent(id, pi)` (`sqlite.js`). -/
def attachPaymentIntent (db : List Reservation) (id pi : String) :
    List Reservation × Bool :=
  (db.map fun r =>
      if r.id == id then { r with stripe_payment_intent := some pi } else r,
   db.any fun r => r.id == id)

/-- The `data.object` of a `checkout.session.completed` event: the fields the
webhook handler reads (`server.js` lines 70–77). -/
structure StripeSession where
  client_reference_id : Option String := none
  metadata_reservation_id : Option String := none
  payment_intent : Option String := none
deriving DecidableEq, Repr

/-- An inbound processor event: a string `type` and the session payload
(only inspected for `checkout.session.completed`). -/
structure StripeEvent where
  type : String
  session : StripeSession := {}
deriving DecidableEq, Repr

/-- `session.client_reference_id || (session.metadata && session.metadata.reservation_id)`
followed by the handler's own `if (reservationId)` truthiness guard:
the id actually used, or `none` when the guard fails. -/
def resolveReservationId (s : StripeSession) : Option String :=
  if truthyStr s.client_reference_id then s.client_reference_id
  else if truthyStr s.metadata_reservation_id then s.metadata_reservation_id
  else none

/-- The `checkout.session.completed` branch of the webhook (`server.js`
lines 69–83), with failure injection for the two store writes inside the
`try`: a `true` flag makes that statement throw (mutating nothing), and the
surrounding `catch` swallows the exception, skipping the rest of the block. -/
def handleCompletedTry (db : List Reservation) (s : StripeSession)
    (fail1 fail2 : Bool) : List Reservation :=
  match resolveReservationId s with
  | some rid =>
    if fail1 then db
    else
      let db1 := (updateReservationStatus db rid "paid").1
      if fail2 then db1
      else (attachPaymentIntent db1 rid (s.payment_intent.getD "")).1
  | none => db

/-- The event dispatch `switch` (`server.js` lines 68–100): only
`checkout.session.completed` touches the store; every other type (including
unrecognized ones) only logs. -/
def handleEventTry (db : List Reservation) (e : StripeEvent)
    (fail1 fail2 : Bool) : List Reservation :=
  if e.type == "checkout.session.completed" then
    handleCompletedTry db e.session fail1 fail2
  else db

/-- The store effect of the webhook when no store write throws. -/
def handleEvent (db : List Reservation) (e : StripeEvent) : List Reservation :=
  handleEventTry db e false false

/-- The webhook endpoint's possible responses (`server.js` lines 46–103). -/
inductive WebhookResp where
  /-- 500 `'Stripe not configured'` -/
  | notConfigured
  /-- 400 `Webhook Error: ...` from failed signature verification -/
  | sigError (msg : String)
  /-- 200 `{received: true}` -/
  | received
deriving DecidableEq, Repr

/-- HTTP status of each webhook response. -/
def respStatus : WebhookResp → Nat
  | .notConfigured => 500
  | .sigError _ => 400
  | .received => 200

/-- `POST /webhook/stripe` (`server.js` lines 46–103).  The Stripe SDK's
`constructEvent` (external code) is represented by its outcome
`verifyOutcome`, consulted only when a webhook secret is configured;
without a secret the raw body's `JSON.parse` result is `parsedEvent`
(`none` when parsing threw and the raw buffer fell through the `switch`). -/
def webhookStripe (stripeConfigured secretConfigured : Bool)
    (verifyOutcome : Except String StripeEvent)
    (parsedEvent : Option StripeEvent) (fail1 fail2 : Bool)
    (db : List Reservation) : List Reservation × WebhookResp :=
  if !stripeConfigured then (db, .notConfigured)
  else if secretConfigured then
    match verifyOutcome with
    | .error msg => (db, .sigError msg)
    | .ok e => (handleEventTry db e fail1 fail2, .received)
  else
    match parsedEvent with
    | some e => (handleEventTry db e fail1 fail2, .received)
    | none => (db, .received)

/-- Outcome of `POST /api/create-checkout` (`server.js` lines 283–325), up to
the external session-creation call: either an early error response or the
`unit_amount` handed to the processor.  The route has no amount validation of
any kind. -/
inductive CheckoutResult where
  /-- 500 `'Stripe not configured'` -/
  | notConfigured
  /-- 400 `'reservationId and item required'` -/
  | missingFields
  /-- request accepted; this `unit_amount` is sent to the processor -/
  | ok (unit_amount : Int)
deriving DecidableEq, Repr

/-- The amount computation of `POST /api/create-checkout` (`server.js` lines
297–301): `String(currency).toLowerCase() === 'jpy' ? Math.round(nPrice)
: Math.round(nPrice * 100)`. -/
def unitAmount (nPrice : Rat) (currency : String) : Int :=
  if jsToLowerCase currency == "jpy" then jsRound nPrice
  else jsRound (nPrice * 100)

/-- `POST /api/create-checkout` (`server.js` lines 283–301): the request
fields are the (possibly absent) JSON body entries; `currency` defaults to
`'usd'` and `nPrice` is `Number(price || 0)`. -/
def createCheckoutHandler (stripeConfigured : Bool)
    (reservationId item : Option String) (price : Option Rat)
    (currency : Option String) : CheckoutResult :=
  if !stripeConfigured then .notConfigured
  else if !truthyStr reservationId || !truthyStr item then .missingFields
  else .ok (unitAmount (price.getD 0) (currency.getD "usd"))

/-- Body of `POST /api/reservations` (`server.js` lines 131–150); absent
fields are `none`, and `status` defaults to `'pending'` only when the
property is absent (JS destructuring default). -/
structure CreateReq where
  salonId : Option String := none
  salonName : Option String := none
  item : Option String := none
  price : Option Rat := none
  timeISO : Option String := none
  contact_name : Option String := none
  contact_email : Option String := none
  contact_phone : Option String := none
  status : Option String := none
deriving DecidableEq, Repr

/-- `POST /api/reservations` (`server.js` lines 131–150): validates
`!salonId || !item`, then inserts a fresh row (`createReservation` in
`sqlite.js` appends with a store-assigned id, passed here as `newId`,
stamped `now`).  Returns the new id, or `none` for the 400 response. -/
def createReservationHandler (db : List Reservation) (newId : String)
    (now : Nat) (req : CreateReq) : List Reservation × Option String :=
  if !truthyStr req.salonId || !truthyStr req.item then (db, none)
  else
    (db ++ [{ id := newId
              salon_id := req.salonId.getD ""
              salon_name := req.salonName.getD ""
              item := req.item.getD ""
              price := req.price.getD 0
              time_iso := req.timeISO.getD ""
              contact_name := req.contact_name.getD ""
              contact_email := req.contact_email.getD ""
              contact_phone := req.contact_phone.getD ""
              status := req.status.getD "pending"
              created_at := now }], some newId)

/-- Responses of `PATCH /api/reservations/:id` past the admin gate. -/
inductive PatchResp where
  /-- 400 `'status required'` -/
  | badRequest
  /-- 404 `'Not found'` -/
  | notFound
  /-- 200 `{ok: true}` -/
  | ok
deriving DecidableEq, Repr

/-- `PATCH /api/reservations/:id` (`server.js` lines 169–175), after
`requireAdmin`: rejects a falsy `status`, otherwise runs
`updateReservationStatus` and maps its row-count to ok / 404. -/
def patchReservationHandler (db : List Reservation) (id : String)
    (status : Option String) : List Reservation × PatchResp :=
  if truthyStr status then
    let p := updateReservationStatus db id (status.getD "")
    (p.1, if p.2 then .ok else .notFound)
  else (db, .badRequest)

/-- JS `String.prototype.startsWith`: the first `pre.length` characters of
`s` equal `pre`. -/
def jsStartsWith (s pre : String) : Bool :=
  s.data.take pre.data.length == pre.data

/-- JS `String.prototype.slice(n)` for a nonnegative index: drop the first
`n` characters. -/
def jsSlice (s : String) (n : Nat) : String := ⟨s.data.drop n⟩

/-- Outcome of the `requireAdmin` middleware (`server.js` lines 115–121). -/
inductive AdminCheck where
  /-- 401 `{error: 'No token'}` -/
  | noToken
  /-- 403 `{error: 'Forbidden'}` -/
  | forbidden
  /-- `next()` -/
  | authorized
deriving DecidableEq, Repr

/-- `requireAdmin` (`server.js` lines 115–121): take the `Authorization`
header (or `''`), require the `Bearer ` scheme, then compare
`auth.slice(7)` with the admin token by exact string equality. -/
def requireAdmin (adminToken : String) (authHeader : Option String) :
    AdminCheck :=
  let auth := authHeader.getD ""
  if !jsStartsWith auth "Bearer " then .noToken
  else if !(jsSlice auth 7 == adminToken) then .forbidden
  else .authorized

/-- One step of SQLite `LIKE '%q%'` matching over char lists. -/
def containsList : List Char → List Char → Bool
  | [], pat => pat.isEmpty
  | c :: rest, pat =>
    (c :: rest).take pat.length == pat || containsList rest pat

/-- SQLite `field LIKE '%q%'` (case-insensitive for ASCII, as SQLite's
default `LIKE` is). -/
def sqlLike (q field : String) : Bool :=
  containsList (jsToLowerCase field).data (jsToLowerCase q).data

/-- The row predicate of `listReservations` (`sqlite.js` lines 40–53): the
optional `status = ?` equality and the optional five-field `LIKE` filter,
each included only when the query value is truthy. -/
def listRowMatch (status q : Option String) (r : Reservation) : Bool :=
  (if truthyStr status then r.status == status.getD "" else true)
  && (if truthyStr q then
        (sqlLike (q.getD "") r.item || sqlLike (q.getD "") r.salon_name
         || sqlLike (q.getD "") r.contact_name
         || sqlLike (q.getD "") r.contact_email
         || sqlLike (q.getD "") r.contact_phone)
      else true)

/-- `listReservations({status, q, limit, offset})` (`sqlite.js` lines
40–53): filter, `ORDER BY created_at DESC`, then `LIMIT ? OFFSET ?`. -/
def listReservations (db : List Reservation) (status q : Option String)
    (limit offset : Nat) : List Reservation :=
  ((((db.filter (listRowMatch status q)).mergeSort
      fun a b => b.created_at ≤ a.created_at).drop offset).take limit)

/-- Responses of `GET /api/reservations` (`server.js` lines 158–167). -/
inductive ListResp where
  /-- 401 `{error: 'No token'}` -/
  | unauthorized
  /-- 403 `{error: 'Forbidden'}` -/
  | forbidden
  /-- 200, the filtered rows -/
  | ok (rows : List Reservation)
deriving DecidableEq, Repr

/-- `GET /api/reservations` (`server.js` lines 158–167): `requireAdmin`,
then `db.listReservations` on the query parameters. -/
def getReservationsHandler (adminToken : String) (authHeader : Option String)
    (db : List Reservation) (status q : Option String) (limit offset : Nat) :
    ListResp :=
  match requireAdmin adminToken authHeader with
  | .noToken => .unauthorized
  | .forbidden => .forbidden
  | .authorized => .ok (listReservations db status q limit offset)

/-- The store-mutating operations of the core, for stating invariants:
reservation creation, admin status update, webhook reconciliation (with
failure injection), and the Checkout Initiator's session attach. -/
inductive Op where
  | create (newId : String) (now : Nat) (req : CreateReq)
  | patch (id : String) (status : Option String)
  | webhook (e : StripeEvent) (fail1 fail2 : Bool)
  | checkout (id sid : String)
deriving DecidableEq, Repr

/-- The effect of one operation on the reservation store. -/
def applyOp (db : List Reservation) : Op → List Reservation
  | .create newId now req => (createReservationHandler db newId now req).1
  | .patch id status => (patchReservationHandler db id status).1
  | .webhook e fail1 fail2 => handleEventTry db e fail1 fail2
  | .checkout id sid => (attachStripeSession db id sid).1

/-- The finite status set of §4.2 of the spec: `pending`, `pending_online`,
`paid`, `reserved`, plus the admin-only `failed` / `canceled` outcome. -/
def allowedStatuses : List String :=
  ["pending", "pending_online", "paid", "reserved", "failed", "canceled"]

/-- Every stored reservation's status lies in `allowedStatuses`. -/
def dbStatusesAllowed (db : List Reservation) : Bool :=
  db.all fun r => allowedStatuses.contains r.status

/-- The statuses an operation itself supplies lie in `allowedStatuses`
(vacuous for operations that carry no caller-chosen status). -/
def opStatusAllowed : Op → Bool
  | .create _ _ req => allowedStatuses.contains (req.status.getD "pending")
  | .patch _ status => !truthyStr status || allowedStatuses.contains (status.getD "")
  | .webhook _ _ _ => true
  | .checkout _ _ => true

/-- A stored optional field holds a non-empty value. -/
def attachedNonEmpty : Option String → Bool
  | some s => !(s == "")
  | none => false

/-- Every row of the store with id `k` has a non-empty payment-intent id
(resp. session id, by `f`). -/
def dbFieldNonEmptyAt (f : Reservation → Option String)
    (db : List Reservation) (k : String) : Bool :=
  db.all fun r => !(r.id == k) || attachedNonEmpty (f r)

/-- The processor-side values an operation writes are non-empty: a webhook
`checkout.session.completed` event carries a truthy `payment_intent`, and a
checkout attach carries a non-empty session id. -/
def opProcIdsNonEmpty : Op → Bool
  | .webhook e _ _ =>
    !(e.type == "checkout.session.completed") || truthyStr e.session.payment_intent
  | .checkout _ sid => !(sid == "")
  | _ => true

/-- `Op.create` uses a store-assigned fresh id (SQLite `AUTOINCREMENT`). -/
def opFreshId (db : List Reservation) : Op → Bool
  | .create newId _ _ => db.all fun r => !(r.id == newId)
  | _ => true

/-! ## Helper lemmas -/

theorem jsRound_intCast (n : Int) : jsRound (n : Rat) = n := by
  simp only [jsRound, Int.floor_int_add]
  norm_num

theorem truthyStr_some_iff (s : String) :
    truthyStr (some s) = true ↔ s ≠ "" := by
  simp [truthyStr]

/-! ## Amount normalization (Checkout Initiator) -/

/-- C1 counterexample: the checkout amount normalization treats `"lkr"` as a
two-decimal currency — `normalize(5000, "lkr")` is `500000`, not the `5000`
the claim requires for a zero-decimal code. -/
theorem unitAmount_lkr_is_multiplied :
    unitAmount 5000 "lkr" = 500000 ∧ unitAmount 5000 "lkr" ≠ 5000 := by
  constructor
  · simp only [unitAmount, jsRound]
    norm_num
    decide
  · simp only [unitAmount, jsRound]
    norm_num
    decide

/-- C1 (amended): the only zero-decimal code the source recognizes is
`"jpy"` (compared case-insensitively); every other currency code — `"lkr"`
included — is normalized as `round(price * 100)`.  In particular
`normalize(1500, "jpy") = 1500`, `normalize(15, "usd") = 1500` and
`normalize(5000, "lkr") = 500000`. -/
theorem unitAmount_zero_decimal_only_jpy (p : Rat) (c : String)
    (hc : jsToLowerCase c ≠ "jpy") :
    unitAmount p "jpy" = jsRound p ∧ unitAmount p "JPY" = jsRound p ∧
    unitAmount p c = jsRound (p * 100) ∧
    unitAmount 1500 "jpy" = 1500 ∧ unitAmount 15 "usd" = 1500 ∧
    unitAmount 5000 "lkr" = 500000 := by
  refine ⟨?_, ?_, ?_, ?_, ?_, ?_⟩
  · simp only [unitAmount]
    rw [show (jsToLowerCase "jpy" == "jpy") = true from by decide]
    simp
  · simp only [unitAmount]
    rw [show (jsToLowerCase "JPY" == "jpy") = true from by decide]
    simp
  · simp [unitAmount, hc]
  · have h : ((1500 : Rat)) = ((1500 : Int) : Rat) := by norm_num
    simp only [unitAmount]
    rw [if_pos (by decide), h, jsRound_intCast]
  · simp only [unitAmount, jsRound]
    norm_num
    decide
  · simp only [unitAmount, jsRound]
    norm_num
    decide

/-- Witness for `unitAmount_zero_decimal_only_jpy` at `p = 2`, `c = "lkr"`. -/
theorem unitAmount_zero_decimal_only_jpy_wit :
    unitAmount 2 "jpy" = jsRound 2 ∧ unitAmount 2 "JPY" = jsRound 2 ∧
    unitAmount 2 "lkr" = jsRound (2 * 100) ∧
    unitAmount 1500 "jpy" = 1500 ∧ unitAmount 15 "usd" = 1500 ∧
    unitAmount 5000 "lkr" = 500000 :=
  unitAmount_zero_decimal_only_jpy 2 "lkr" (by decide)

/-! ## Webhook reconciliation: idempotence -/

theorem handleEvent_idem (db : List Reservation) (e : StripeEvent) :
    handleEvent (handleEvent db e) e = handleEvent db e := by
  unfold handleEvent handleEventTry handleCompletedTry
  by_cases ht : (e.type == "checkout.session.completed") = true
  · simp only [ht, if_true]
    cases hr : resolveReservationId e.session with
    | none => rfl
    | some rid =>
      simp only [updateReservationStatus, attachPaymentIntent,
        Bool.false_eq_true, if_false, List.map_map]
      apply List.map_congr_left
      intro r _
      by_cases h : (r.id == rid) = true <;> simp [Function.comp, h]
  · simp only [Bool.not_eq_true] at ht
    simp [ht]

/-- C2: re-delivering the same verified `checkout.session.completed` event
(same resolved reservation id, same `payment_intent`) is idempotent: the
second webhook application returns exactly the store produced by the first
one together with the 200 `{received: true}` acknowledgment, and after the
first application every row with the resolved id is `paid` and carries the
event's payment-intent value. -/
theorem webhook_completed_idempotent (db : List Reservation)
    (e : StripeEvent) (rid : String)
    (ht : e.type = "checkout.session.completed")
    (hres : resolveReservationId e.session = some rid) :
    (webhookStripe true true (.ok e) none false false
        (webhookStripe true true (.ok e) none false false db).1)
      = ((webhookStripe true true (.ok e) none false false db).1, .received)
    ∧ ((webhookStripe true true (.ok e) none false false db).1.all fun r =>
        !(r.id == rid)
        || (r.status == "paid"
            && r.stripe_payment_intent
                == some (e.session.payment_intent.getD ""))) = true := by
  have hfst : ∀ d : List Reservation,
      webhookStripe true true (.ok e) none false false d
        = (handleEvent d e, .received) := fun d => rfl
  constructor
  · simp only [hfst]
    simp [handleEvent_idem db e]
  · rw [hfst]
    simp only [handleEvent, handleEventTry, handleCompletedTry, ht,
      beq_self_eq_true, if_true, hres, updateReservationStatus,
      attachPaymentIntent, Bool.false_eq_true, if_false, List.map_map,
      List.all_eq_true, List.mem_map]
    rintro r' ⟨r, _, rfl⟩
    by_cases h : (r.id == rid) = true <;> simp [Function.comp, h]

/-- Witness for `webhook_completed_idempotent`: one reservation awaiting
payment, then the same completed event applied twice. -/
theorem webhook_completed_idempotent_wit :
    (webhookStripe true true
        (.ok { type := "checkout.session.completed",
               session := { client_reference_id := some "1",
                            payment_intent := some "pi_9" } }) none false false
        (webhookStripe true true
          (.ok { type := "checkout.session.completed",
                 session := { client_reference_id := some "1",
                              payment_intent := some "pi_9" } }) none false
          false [{ id := "1", status := "pending_online" }]).1)
      = ((webhookStripe true true
          (.ok { type := "checkout.session.completed",
                 session := { client_reference_id := some "1",
                              payment_intent := some "pi_9" } }) none false
          false [{ id := "1", status := "pending_online" }]).1, .received)
    ∧ ((webhookStripe true true
          (.ok { type := "checkout.session.completed",
                 session := { client_reference_id := some "1",
                              payment_intent := some "pi_9" } }) none false
          false [{ id := "1", status := "pending_online" }]).1.all fun r =>
        !(r.id == "1")
        || (r.status == "paid"
            && r.stripe_payment_intent
                == some ((some "pi_9" : Option String).getD ""))) = true :=
  webhook_completed_idempotent [{ id := "1", status := "pending_online" }]
    { type := "checkout.session.completed",
      session := { client_reference_id := some "1",
                   payment_intent := some "pi_9" } } "1" rfl (by decide)

/-! ## Status-set invariant -/

/-- C3 counterexample: `POST /api/reservations` stores the caller-supplied
status string unvalidated, so a create request with `status = "banana"`
leaves the store holding a status outside the finite set of §4.2. -/
theorem create_accepts_unlisted_status :
    dbStatusesAllowed ((createReservationHandler [] "1" 0
      { salonId := some "s1", item := some "Cut",
        status := some "banana" }).1) = false := by
  decide

theorem dbStatusesAllowed_update (db : List Reservation) (id s : String)
    (hs : allowedStatuses.contains s = true)
    (hdb : dbStatusesAllowed db = true) :
    dbStatusesAllowed (updateReservationStatus db id s).1 = true := by
  simp only [updateReservationStatus, dbStatusesAllowed, List.all_eq_true,
    List.mem_map] at hdb ⊢
  rintro r' ⟨r, hr, rfl⟩
  by_cases h : (r.id == id) = true
  · rw [if_pos h]
    exact hs
  · rw [if_neg h]
    exact hdb r hr

theorem dbStatusesAllowed_attachPI (db : List Reservation) (id pi : String)
    (hdb : dbStatusesAllowed db = true) :
    dbStatusesAllowed (attachPaymentIntent db id pi).1 = true := by
  simp only [attachPaymentIntent, dbStatusesAllowed, List.all_eq_true,
    List.mem_map] at hdb ⊢
  rintro r' ⟨r, hr, rfl⟩
  by_cases h : (r.id == id) = true
  · rw [if_pos h]
    exact hdb r hr
  · rw [if_neg h]
    exact hdb r hr

theorem dbStatusesAllowed_attachSession (db : List Reservation)
    (id sid : String) (hdb : dbStatusesAllowed db = true) :
    dbStatusesAllowed (attachStripeSession db id sid).1 = true := by
  simp only [attachStripeSession, dbStatusesAllowed, List.all_eq_true,
    List.mem_map] at hdb ⊢
  rintro r' ⟨r, hr, rfl⟩
  by_cases h : (r.id == id) = true
  · rw [if_pos h]
    exact hdb r hr
  · rw [if_neg h]
    exact hdb r hr

/-- C3 (amended): the webhook only ever writes `paid`, and the attach
operations never touch `status`; but the create and admin-update paths
store the caller's status string unvalidated, so the §4.2 finite-set
invariant is preserved by every core operation exactly when the statuses
those two paths supply lie in the set. -/
theorem statuses_closed_under_ops (db : List Reservation) (op : Op)
    (hop : opStatusAllowed op = true) (hdb : dbStatusesAllowed db = true) :
    dbStatusesAllowed (applyOp db op) = true := by
  cases op with
  | create newId now req =>
    simp only [applyOp, createReservationHandler]
    by_cases hv : (!truthyStr req.salonId || !truthyStr req.item) = true
    · simp [hv, hdb]
    · simp only [hv, Bool.false_eq_true, if_false]
      simp only [opStatusAllowed] at hop
      simp only [dbStatusesAllowed, List.all_eq_true] at hdb ⊢
      intro x hx
      rcases List.mem_append.mp hx with hx' | hx'
      · exact hdb x hx'
      · simp only [List.mem_singleton] at hx'
        subst hx'
        exact hop
  | patch id status =>
    simp only [applyOp, patchReservationHandler]
    by_cases hts : truthyStr status = true
    · simp only [hts, if_true]
      exact dbStatusesAllowed_update db id (status.getD "")
        (by simpa [opStatusAllowed, hts] using hop) hdb
    · simp [hts, hdb]
  | webhook e f1 f2 =>
    simp only [applyOp, handleEventTry]
    by_cases ht : (e.type == "checkout.session.completed") = true
    · simp only [ht, if_true, handleCompletedTry]
      cases hr : resolveReservationId e.session with
      | none => exact hdb
      | some rid =>
        cases f1 with
        | true => simpa using hdb
        | false =>
          simp only [Bool.false_eq_true, if_false]
          cases f2 with
          | true =>
            simpa using dbStatusesAllowed_update db rid "paid" (by decide) hdb
          | false =>
            simp only [Bool.false_eq_true, if_false]
            exact dbStatusesAllowed_attachPI _ rid _
              (dbStatusesAllowed_update db rid "paid" (by decide) hdb)
    · simp [ht, hdb]
  | checkout id sid => exact dbStatusesAllowed_attachSession db id sid hdb

/-- Witness for `statuses_closed_under_ops`: creating a reservation with the
default `pending` status on an empty store. -/
theorem statuses_closed_under_ops_wit :
    dbStatusesAllowed (applyOp []
      (Op.create "1" 0 { salonId := some "s1", item := some "Cut" })) = true :=
  statuses_closed_under_ops [] (Op.create "1" 0
    { salonId := some "s1", item := some "Cut" }) (by decide) (by decide)

/-! ## Processor-identifier invariant -/

/-- C4 counterexample: a completed event whose `payment_intent` is absent
makes the webhook write `session.payment_intent || ''`, overwriting the
reservation's previously attached non-empty payment-intent id `"pi_123"`
with the empty string. -/
theorem webhook_overwrites_payment_intent_with_empty :
    dbFieldNonEmptyAt (fun r => r.stripe_payment_intent)
      [{ id := "1", status := "pending_online",
         stripe_session_id := some "cs_1",
         stripe_payment_intent := some "pi_123" }] "1" = true
    ∧ dbFieldNonEmptyAt (fun r => r.stripe_payment_intent)
        (handleEvent
          [{ id := "1", status := "pending_online",
             stripe_session_id := some "cs_1",
             stripe_payment_intent := some "pi_123" }]
          { type := "checkout.session.completed",
            session := { client_reference_id := some "1" } }) "1" = false := by
  constructor
  · decide
  · decide

theorem dbFieldNonEmptyAt_map (f : Reservation → Option String)
    (u : Reservation → Reservation) (db : List Reservation) (k : String)
    (hid : ∀ r, (u r).id = r.id)
    (hf : ∀ r, (r.id == k) = true → attachedNonEmpty (f r) = true →
      attachedNonEmpty (f (u r)) = true)
    (h : dbFieldNonEmptyAt f db k = true) :
    dbFieldNonEmptyAt f (db.map u) k = true := by
  simp only [dbFieldNonEmptyAt, List.all_eq_true, List.mem_map] at h ⊢
  rintro r' ⟨r, hr, rfl⟩
  have hr' := h r hr
  rw [hid]
  by_cases hk' : (r.id == k) = true
  · simp only [hk', Bool.not_true, Bool.false_or] at hr' ⊢
    exact hf r hk' hr'
  · simp [hk']

theorem pi_field_preserved (db : List Reservation) (op : Op) (k : String)
    (hop : opProcIdsNonEmpty op = true) (hfresh : opFreshId db op = true)
    (hk : (db.any fun r => r.id == k) = true)
    (hpi : dbFieldNonEmptyAt (fun r => r.stripe_payment_intent) db k = true) :
    dbFieldNonEmptyAt (fun r => r.stripe_payment_intent) (applyOp db op) k
      = true := by
  cases op with
  | create newId now req =>
    simp only [applyOp, createReservationHandler]
    by_cases hv : (!truthyStr req.salonId || !truthyStr req.item) = true
    · simp only [hv, if_true]
      exact hpi
    · simp only [hv, Bool.false_eq_true, if_false]
      simp only [List.any_eq_true] at hk
      obtain ⟨rk, hrk, hrkid⟩ := hk
      simp only [opFreshId, List.all_eq_true] at hfresh
      have hne : (newId == k) = false := by
        have h1 := hfresh rk hrk
        have h2 : rk.id = k := by simpa using hrkid
        have h3 : ¬(rk.id = newId) := by simpa using h1
        simp only [beq_eq_false_iff_ne, ne_eq]
        intro hcon
        exact h3 (by rw [h2, hcon])
      simp only [dbFieldNonEmptyAt, List.all_append, Bool.and_eq_true,
        List.all_eq_true] at hpi ⊢
      refine ⟨hpi, ?_⟩
      intro x hx
      simp only [List.mem_singleton] at hx
      subst hx
      simp [hne]
  | patch id status =>
    simp only [applyOp, patchReservationHandler]
    by_cases hts : truthyStr status = true
    · simp only [hts, if_true, updateReservationStatus]
      refine dbFieldNonEmptyAt_map _ _ db k ?_ ?_ hpi
      · intro r
        by_cases h : (r.id == id) = true <;> simp [h]
      · intro r _ hne
        by_cases h : (r.id == id) = true <;> simpa [h] using hne
    · simp only [hts, Bool.false_eq_true, if_false]
      exact hpi
  | webhook e f1 f2 =>
    simp only [applyOp, handleEventTry]
    by_cases ht : (e.type == "checkout.session.completed") = true
    · simp only [ht, if_true, handleCompletedTry]
      cases hres : resolveReservationId e.session with
      | none => exact hpi
      | some rid =>
        cases f1 with
        | true => exact hpi
        | false =>
          simp only [Bool.false_eq_true, if_false, updateReservationStatus,
            attachPaymentIntent]
          have h1pi : dbFieldNonEmptyAt (fun r => r.stripe_payment_intent)
              (db.map fun r =>
                if r.id == rid then { r with status := "paid" } else r) k
              = true := by
            refine dbFieldNonEmptyAt_map _ _ db k ?_ ?_ hpi
            · intro r
              by_cases h : (r.id == rid) = true <;> simp [h]
            · intro r _ hne
              by_cases h : (r.id == rid) = true <;> simpa [h] using hne
          cases f2 with
          | true => exact h1pi
          | false =>
            simp only [Bool.false_eq_true, if_false]
            have hvne : (e.session.payment_intent.getD "" == "") = false := by
              simp only [opProcIdsNonEmpty, ht, Bool.not_true,
                Bool.false_or] at hop
              cases hpo : e.session.payment_intent with
              | none => rw [hpo] at hop; simp [truthyStr] at hop
              | some s =>
                rw [hpo] at hop
                simpa [truthyStr] using hop
            refine dbFieldNonEmptyAt_map _ _ _ k ?_ ?_ h1pi
            · intro r
              by_cases h : (r.id == rid) = true <;> simp [h]
            · intro r _ hne
              by_cases h : (r.id == rid) = true
              · simp [h, attachedNonEmpty, hvne]
              · simpa [h] using hne
    · simp only [ht, Bool.false_eq_true, if_false]
      exact hpi
  | checkout id sid =>
    simp only [applyOp, attachStripeSession]
    refine dbFieldNonEmptyAt_map _ _ db k ?_ ?_ hpi
    · intro r
      by_cases h : (r.id == id) = true <;> simp [h]
    · intro r _ hne
      by_cases h : (r.id == id) = true <;> simpa [h] using hne

theorem sid_field_preserved (db : List Reservation) (op : Op) (k : String)
    (hop : opProcIdsNonEmpty op = true) (hfresh : opFreshId db op = true)
    (hk : (db.any fun r => r.id == k) = true)
    (hsid : dbFieldNonEmptyAt (fun r => r.stripe_session_id) db k = true) :
    dbFieldNonEmptyAt (fun r => r.stripe_session_id) (applyOp db op) k
      = true := by
  cases op with
  | create newId now req =>
    simp only [applyOp, createReservationHandler]
    by_cases hv : (!truthyStr req.salonId || !truthyStr req.item) = true
    · simp only [hv, if_true]
      exact hsid
    · simp only [hv, Bool.false_eq_true, if_false]
      simp only [List.any_eq_true] at hk
      obtain ⟨rk, hrk, hrkid⟩ := hk
      simp only [opFreshId, List.all_eq_true] at hfresh
      have hne : (newId == k) = false := by
        have h1 := hfresh rk hrk
        have h2 : rk.id = k := by simpa using hrkid
        have h3 : ¬(rk.id = newId) := by simpa using h1
        simp only [beq_eq_false_iff_ne, ne_eq]
        intro hcon
        exact h3 (by rw [h2, hcon])
      simp only [dbFieldNonEmptyAt, List.all_append, Bool.and_eq_true,
        List.all_eq_true] at hsid ⊢
      refine ⟨hsid, ?_⟩
      intro x hx
      simp only [List.mem_singleton] at hx
      subst hx
      simp [hne]
  | patch id status =>
    simp only [applyOp, patchReservationHandler]
    by_cases hts : truthyStr status = true
    · simp only [hts, if_true, updateReservationStatus]
      refine dbFieldNonEmptyAt_map _ _ db k ?_ ?_ hsid
      · intro r
        by_cases h : (r.id == id) = true <;> simp [h]
      · intro r _ hne
        by_cases h : (r.id == id) = true <;> simpa [h] using hne
    · simp only [hts, Bool.false_eq_true, if_false]
      exact hsid
  | webhook e f1 f2 =>
    simp only [applyOp, handleEventTry]
    by_cases ht : (e.type == "checkout.session.completed") = true
    · simp only [ht, if_true, handleCompletedTry]
      cases hres : resolveReservationId e.session with
      | none => exact hsid
      | some rid =>
        cases f1 with
        | true => exact hsid
        | false =>
          simp only [Bool.false_eq_true, if_false, updateReservationStatus,
            attachPaymentIntent]
          have h1sid : dbFieldNonEmptyAt (fun r => r.stripe_session_id)
              (db.map fun r =>
                if r.id == rid then { r with status := "paid" } else r) k
              = true := by
            refine dbFieldNonEmptyAt_map _ _ db k ?_ ?_ hsid
            · intro r
              by_cases h : (r.id == rid) = true <;> simp [h]
            · intro r _ hne
              by_cases h : (r.id == rid) = true <;> simpa [h] using hne
          cases f2 with
          | true => exact h1sid
          | false =>
            simp only [Bool.false_eq_true, if_false]
            refine dbFieldNonEmptyAt_map _ _ _ k ?_ ?_ h1sid
            · intro r
              by_cases h : (r.id == rid) = true <;> simp [h]
            · intro r _ hne
              by_cases h : (r.id == rid) = true <;> simpa [h] using hne
    · simp only [ht, Bool.false_eq_true, if_false]
      exact hsid
  | checkout id sid =>
    simp only [applyOp, attachStripeSession]
    simp only [opProcIdsNonEmpty] at hop
    refine dbFieldNonEmptyAt_map _ _ db k ?_ ?_ hsid
    · intro r
      by_cases h : (r.id == id) = true <;> simp [h]
    · intro r _ hne
      by_cases h : (r.id == id) = true
      · simp only [h, if_true, attachedNonEmpty]
        simpa using hop
      · simpa [h] using hne

/-- C4 (amended): no core operation ever clears an attached processor
identifier back to NULL, and each identifier is preserved independently:
as long as the values the processor hands back are themselves non-empty —
every applied `checkout.session.completed` event carries a truthy
`payment_intent`, every attached session id is non-empty — a payment-intent
id once attached with a non-empty value stays non-empty, and likewise a
session id, regardless of the state of the other field (in particular in
the `pending_online` state, where the session id is attached while the
payment intent is still NULL).  (The unconditional claim fails: an event
without `payment_intent` writes the empty string, see the counterexample.) -/
theorem proc_ids_preserved_nonempty (db : List Reservation) (op : Op)
    (k : String) (hop : opProcIdsNonEmpty op = true)
    (hfresh : opFreshId db op = true)
    (hk : (db.any fun r => r.id == k) = true) :
    (dbFieldNonEmptyAt (fun r => r.stripe_payment_intent) db k = true →
      dbFieldNonEmptyAt (fun r => r.stripe_payment_intent) (applyOp db op) k
        = true)
    ∧ (dbFieldNonEmptyAt (fun r => r.stripe_session_id) db k = true →
      dbFieldNonEmptyAt (fun r => r.stripe_session_id) (applyOp db op) k
        = true) :=
  ⟨fun hpi => pi_field_preserved db op k hop hfresh hk hpi,
   fun hsid => sid_field_preserved db op k hop hfresh hk hsid⟩

/-- Witness for `proc_ids_preserved_nonempty`: a reservation in the
`pending_online` state — session id attached, payment intent still NULL —
receiving a completed event that carries a non-empty `payment_intent`. -/
theorem proc_ids_preserved_nonempty_wit :
    (dbFieldNonEmptyAt (fun r => r.stripe_payment_intent)
        [{ id := "1", status := "pending_online",
           stripe_session_id := some "cs_1" }] "1" = true →
      dbFieldNonEmptyAt (fun r => r.stripe_payment_intent)
        (applyOp [{ id := "1", status := "pending_online",
                    stripe_session_id := some "cs_1" }]
          (Op.webhook { type := "checkout.session.completed",
                        session := { client_reference_id := some "1",
                                     payment_intent := some "pi_2" } }
            false false)) "1" = true)
    ∧ (dbFieldNonEmptyAt (fun r => r.stripe_session_id)
        [{ id := "1", status := "pending_online",
           stripe_session_id := some "cs_1" }] "1" = true →
      dbFieldNonEmptyAt (fun r => r.stripe_session_id)
        (applyOp [{ id := "1", status := "pending_online",
                    stripe_session_id := some "cs_1" }]
          (Op.webhook { type := "checkout.session.completed",
                        session := { client_reference_id := some "1",
                                     payment_intent := some "pi_2" } }
            false false)) "1" = true) :=
  proc_ids_preserved_nonempty
    [{ id := "1", status := "pending_online",
       stripe_session_id := some "cs_1" }]
    (Op.webhook { type := "checkout.session.completed",
                  session := { client_reference_id := some "1",
                               payment_intent := some "pi_2" } }
      false false) "1" (by decide) (by decide) (by decide)

/-! ## Amount validation and rounding policy -/

/-- C5 counterexample: `POST /api/create-checkout` performs no amount
validation at all — the negative price `-5` with currency `usd` is accepted
and normalized to `unit_amount = -500` instead of being rejected with an
`InvalidAmount` error; moreover `Math.round` is half-up, which differs from
the claimed round-half-away-from-zero at `-1/2`. -/
theorem checkout_accepts_negative_price :
    createCheckoutHandler true (some "r1") (some "Cut") (some (-5))
        (some "usd") = .ok (-500)
    ∧ jsRound (-(1 : Rat)/2) = 0 ∧ roundHalfAway (-(1 : Rat)/2) = -1 := by
  refine ⟨?_, ?_, ?_⟩
  · simp only [createCheckoutHandler, truthyStr, unitAmount, jsRound,
      Option.getD]
    norm_num
    decide
  · simp only [jsRound]
    norm_num
  · simp only [roundHalfAway]
    rw [if_neg (by norm_num)]
    norm_num

/-- C5 (amended): the checkout route has no amount validation: every price,
negative ones included, passes straight to `Math.round` (round half toward
positive infinity) once `reservationId` and `item` are truthy.  On
nonnegative prices that rounding coincides with the claimed
round-half-away-from-zero; on negatives it does not (counterexample).
Non-finite doubles have no counterpart in this exact-rational model. -/
theorem checkout_no_amount_validation (rid item : String)
    (hr : rid ≠ "") (hi : item ≠ "") (p : Rat) (c : Option String) :
    createCheckoutHandler true (some rid) (some item) (some p) c
      = .ok (unitAmount p (c.getD "usd"))
    ∧ (0 ≤ p → jsRound p = roundHalfAway p
        ∧ jsRound (p * 100) = roundHalfAway (p * 100)) := by
  constructor
  · simp [createCheckoutHandler, truthyStr, hr, hi]
  · intro hp
    constructor
    · simp [roundHalfAway, jsRound, hp]
    · have h100 : (0 : Rat) ≤ p * 100 := by positivity
      simp [roundHalfAway, jsRound, h100]

/-- Witness for `checkout_no_amount_validation` at price `15`, `usd`. -/
theorem checkout_no_amount_validation_wit :
    createCheckoutHandler true (some "r1") (some "Cut") (some 15)
        (some "usd")
      = .ok (unitAmount 15 ((some "usd" : Option String).getD "usd"))
    ∧ (0 ≤ (15 : Rat) → jsRound 15 = roundHalfAway 15
        ∧ jsRound ((15 : Rat) * 100) = roundHalfAway ((15 : Rat) * 100)) :=
  checkout_no_amount_validation "r1" "Cut" (by decide) (by decide) 15
    (some "usd")

/-! ## Webhook no-op and failure semantics -/

/-- C6: a verified completed event whose correlation id matches no stored
reservation is acknowledged with the 200 `{received: true}` response and
leaves the store exactly as it was (the matching `UPDATE`s touch zero
rows). -/
theorem webhook_unknown_target_noop (db : List Reservation) (e : StripeEvent)
    (rid : String) (hres : resolveReservationId e.session = some rid)
    (habs : (db.any fun r => r.id == rid) = false) :
    webhookStripe true true (.ok e) none false false db = (db, .received)
    ∧ respStatus .received = 200 := by
  have hmap : ∀ u : Reservation → Reservation,
      (db.map fun r => if r.id == rid then u r else r) = db := by
    intro u
    have hptw : ∀ r ∈ db, (if r.id == rid then u r else r) = id r := by
      intro r hr
      have hne : (r.id == rid) = false := by
        by_contra hc
        have hmem : (db.any fun r => r.id == rid) = true :=
          List.any_eq_true.mpr ⟨r, hr, by simpa using hc⟩
        rw [hmem] at habs
        exact Bool.true_eq_false.mp habs
      simp [hne]
    rw [List.map_congr_left hptw, List.map_id]
  constructor
  · show (handleEventTry db e false false, WebhookResp.received)
      = (db, .received)
    simp only [handleEventTry]
    by_cases ht : (e.type == "checkout.session.completed") = true
    · simp only [ht, if_true, handleCompletedTry, hres,
        updateReservationStatus, attachPaymentIntent, Bool.false_eq_true,
        if_false]
      rw [hmap, hmap]
    · simp [ht]
  · rfl

/-- Witness for `webhook_unknown_target_noop`: an event for reservation
`"2"` against a store holding only reservation `"1"`. -/
theorem webhook_unknown_target_noop_wit :
    webhookStripe true true
        (.ok { type := "checkout.session.completed",
               session := { client_reference_id := some "2",
                            payment_intent := some "pi_7" } }) none false
        false [{ id := "1" }]
      = ([{ id := "1" }], .received)
    ∧ respStatus .received = 200 :=
  webhook_unknown_target_noop [{ id := "1" }]
    { type := "checkout.session.completed",
      session := { client_reference_id := some "2",
                   payment_intent := some "pi_7" } } "2" (by decide)
    (by decide)

/-- C7: an inbound event carrying neither correlation field (no client
reference string, no reservation-id metadata entry) mutates nothing and is
still acknowledged with the 200 `{received: true}` success response. -/
theorem webhook_no_correlation_noop (db : List Reservation)
    (e : StripeEvent) (f1 f2 : Bool)
    (h1 : e.session.client_reference_id = none)
    (h2 : e.session.metadata_reservation_id = none) :
    webhookStripe true true (.ok e) none f1 f2 db = (db, .received)
    ∧ respStatus .received = 200 := by
  have hres : resolveReservationId e.session = none := by
    simp [resolveReservationId, h1, h2, truthyStr]
  constructor
  · show (handleEventTry db e f1 f2, WebhookResp.received) = (db, .received)
    simp only [handleEventTry]
    by_cases ht : (e.type == "checkout.session.completed") = true
    · simp [ht, handleCompletedTry, hres]
    · simp [ht]
  · rfl

/-- Witness for `webhook_no_correlation_noop`: a completed event with no
correlation fields at all. -/
theorem webhook_no_correlation_noop_wit :
    webhookStripe true true
        (.ok { type := "checkout.session.completed", session := {} }) none
        false false [{ id := "1" }]
      = ([{ id := "1" }], .received)
    ∧ respStatus .received = 200 :=
  webhook_no_correlation_noop [{ id := "1" }]
    { type := "checkout.session.completed", session := {} } false false
    rfl rfl

/-- C8: with a webhook secret configured, any request whose signature
verification fails is answered with the 400 `Webhook Error` response and
the store is returned untouched — the error return happens before any
store statement runs. -/
theorem webhook_sig_failure_rejected (db : List Reservation) (msg : String)
    (parsed : Option StripeEvent) (f1 f2 : Bool) :
    webhookStripe true true (.error msg) parsed f1 f2 db
      = (db, .sigError msg)
    ∧ respStatus (.sigError msg) = 400 :=
  ⟨rfl, rfl⟩

/-- C10: the try/catch around the two store writes swallows store failures:
whatever write throws, the webhook still answers 200 `{received: true}`
(never a retry signal), and when the first write throws the store is left
unchanged even though the sender got a success acknowledgment. -/
theorem webhook_store_failure_acked (db : List Reservation) (e : StripeEvent)
    (f1 f2 : Bool) :
    respStatus (webhookStripe true true (.ok e) none f1 f2 db).2 = 200
    ∧ (webhookStripe true true (.ok e) none true f2 db).1 = db := by
  constructor
  · rfl
  · show handleEventTry db e true f2 = db
    simp only [handleEventTry]
    by_cases ht : (e.type == "checkout.session.completed") = true
    · cases hres : resolveReservationId e.session <;>
        simp [ht, handleCompletedTry, hres]
    · simp [ht]

/-! ## Admin authorization and list filtering -/

theorem jsStartsWith_append (p t : String) : jsStartsWith (p ++ t) p = true := by
  simp only [jsStartsWith, String.data_append, List.take_left]
  exact beq_self_eq_true p.data

theorem jsSlice_append (p t : String) (n : Nat) (h : p.data.length = n) :
    jsSlice (p ++ t) n = t := by
  obtain ⟨d⟩ := t
  simp only [jsSlice, String.data_append, List.drop_left' h]

theorem requireAdmin_no_header (tok : String) :
    requireAdmin tok none = .noToken := rfl

theorem requireAdmin_wrong_token (tok t : String) (ht : t ≠ tok) :
    requireAdmin tok (some ("Bearer " ++ t)) = .forbidden := by
  simp only [requireAdmin, Option.getD, jsStartsWith_append,
    jsSlice_append "Bearer " t 7 rfl, Bool.not_true, Bool.false_eq_true,
    if_false]
  rw [if_pos]
  simp [ht]

theorem requireAdmin_right_token (tok : String) :
    requireAdmin tok (some ("Bearer " ++ tok)) = .authorized := by
  simp only [requireAdmin, Option.getD, jsStartsWith_append,
    jsSlice_append "Bearer " tok 7 rfl, Bool.not_true, Bool.false_eq_true,
    if_false]
  rw [if_neg]
  simp

theorem listReservations_status_sound (db : List Reservation) (s : String)
    (hs : s ≠ "") (q : Option String) (l o : Nat) :
    ((listReservations db (some s) q l o).all fun r => r.status == s)
      = true := by
  simp only [List.all_eq_true]
  intro r hr
  have h1 : r ∈ (db.filter (listRowMatch (some s) q)).mergeSort
      (fun a b => b.created_at ≤ a.created_at) :=
    List.mem_of_mem_drop (List.mem_of_mem_take hr)
  have h2 : r ∈ db.filter (listRowMatch (some s) q) :=
    List.mem_mergeSort.mp h1
  have h3 := (List.mem_filter.mp h2).2
  simp only [listRowMatch, truthyStr, Bool.and_eq_true] at h3
  have h4 := h3.1
  rw [if_pos (by simpa using hs)] at h4
  simpa using h4

/-- C9: the admin list endpoint distinguishes its authorization outcomes
and filters by the requested status: no bearer token yields the 401
`No token` response, a wrong token yields the 403 `Forbidden` response,
and the exact admin token yields the stored rows as filtered by
`listReservations`, every returned row carrying the requested status. -/
theorem admin_list_auth_filter (tok t : String) (ht : t ≠ tok)
    (db : List Reservation) (s : String) (hs : s ≠ "")
    (q : Option String) (l o : Nat) :
    getReservationsHandler tok none db (some s) q l o = .unauthorized
    ∧ getReservationsHandler tok (some ("Bearer " ++ t)) db (some s) q l o
        = .forbidden
    ∧ getReservationsHandler tok (some ("Bearer " ++ tok)) db (some s) q l o
        = .ok (listReservations db (some s) q l o)
    ∧ ((listReservations db (some s) q l o).all fun r => r.status == s)
        = true := by
  refine ⟨?_, ?_, ?_, listReservations_status_sound db s hs q l o⟩
  · simp [getReservationsHandler, requireAdmin_no_header]
  · simp [getReservationsHandler, requireAdmin_wrong_token tok t ht]
  · simp [getReservationsHandler, requireAdmin_right_token tok]

/-- Witness for `admin_list_auth_filter` with the default `change-me` admin
token, a wrong token `nope`, and a one-row store filtered on `paid`. -/
theorem admin_list_auth_filter_wit :
    getReservationsHandler "change-me" none [{ id := "1", status := "paid" }]
        (some "paid") none 200 0 = .unauthorized
    ∧ getReservationsHandler "change-me" (some ("Bearer " ++ "nope"))
        [{ id := "1", status := "paid" }] (some "paid") none 200 0
        = .forbidden
    ∧ getReservationsHandler "change-me" (some ("Bearer " ++ "change-me"))
        [{ id := "1", status := "paid" }] (some "paid") none 200 0
        = .ok (listReservations [{ id := "1", status := "paid" }]
            (some "paid") none 200 0)
    ∧ ((listReservations [{ id := "1", status := "paid" }] (some "paid")
          none 200 0).all fun r => r.status == "paid") = true :=
  admin_list_auth_filter "change-me" "nope" (by decide)
    [{ id := "1", status := "paid" }] "paid" (by decide) none 200 0
